import Mathlib

/-!
Verification of the QuickRDP credential-resolution and session-provisioning
pipeline (src/src-tauri/src/lib.rs) against its specification.

The Rust source is shallowly embedded: the Windows credential vault becomes an
association list from scope keys to credentials, the per-host `.rdp` artifact
directory becomes an association list from file names to file contents, and
the fallible external calls (ShellExecuteW, LDAP connect / bind / search) are
supplied as oracle inputs in an environment record.  Everything below is a
direct translation of the corresponding Rust functions; external IO failures
that the claims do not touch (CredWriteW failure, fs::write failure, CSV
writer IO errors) are modelled as succeeding, as noted at each definition.
-/

/-- `StoredCredentials` (lib.rs line 98): a decoded credential as returned by
`get_stored_credentials` / `get_host_credentials`. -/
structure StoredCredentials where
  username : String
  password : String
deriving DecidableEq, Repr

/-- The Windows generic-credential vault, as seen through `CredReadW` /
`CredWriteW` with string-decoded blobs: an association list from scope key
(`TargetName`) to credential.  At most one live entry per key is maintained by
`storeWrite`. -/
def Store : Type := List (String × StoredCredentials)

/-- `CredReadW`: the credential stored under scope key `k`, if any. -/
def storeRead (s : Store) (k : String) : Option StoredCredentials :=
  match List.find? (fun e => e.1 == k) s with
  | some e => some e.2
  | none => none

/-- `CredWriteW`: write/overwrite the generic credential under scope key `k`. -/
def storeWrite (s : Store) (k : String) (c : StoredCredentials) : Store :=
  (k, c) :: List.filter (fun e => e.1 != k) s

/-- Rust `s.contains(ch)` on the character list of a string. -/
def containsChar (l : List Char) (c : Char) : Bool :=
  l.any (fun x => x == c)

/-- Rust `s.splitn(2, sep)` when `s` contains `sep`: everything before the
first occurrence of `sep`, and everything after it. -/
def splitOnceList (sep : Char) : List Char → List Char × List Char
  | [] => ([], [])
  | c :: cs =>
    if c = sep then ([], cs)
    else
      let r := splitOnceList sep cs
      (c :: r.1, r.2)

/-- `Identity`: a login identifier decomposed into realm and account. -/
structure Identity where
  realm : String
  account : String
deriving DecidableEq, Repr

/-- The username-parsing logic inlined in `launch_rdp` (lib.rs lines 820-839):
`DOMAIN\username` splits on the first backslash, else `username@domain` splits
on the first `@` (realm is the right-hand side), else the realm is empty.
The Rust `parts.len() == 2` checks always succeed when `contains` does, so the
corresponding dead branches are not represented. -/
def parse_identity (login : String) : Identity :=
  if containsChar login.data '\\' then
    let p := splitOnceList '\\' login.data
    ⟨String.mk p.1, String.mk p.2⟩
  else if containsChar login.data '@' then
    let p := splitOnceList '@' login.data
    ⟨String.mk p.2, String.mk p.1⟩
  else ⟨"", login⟩

theorem splitOnceList_append (sep : Char) (l r : List Char) (h : sep ∉ l) :
    splitOnceList sep (l ++ sep :: r) = (l, r) := by
  induction l with
  | nil => simp [splitOnceList]
  | cons c cs ih =>
    have hc : c ≠ sep := fun hcs => h (hcs ▸ List.mem_cons_self c cs)
    have hm : sep ∉ cs := fun hm => h (List.mem_cons_of_mem c hm)
    simp [splitOnceList, hc, ih hm]

theorem containsChar_eq_true {l : List Char} {c : Char} :
    containsChar l c = true ↔ c ∈ l := by
  simp only [containsChar, List.any_eq_true, beq_iff_eq]
  exact ⟨fun ⟨x, hx, he⟩ => he ▸ hx, fun h => ⟨c, h, rfl⟩⟩

/-- `Host` (lib.rs line 105): one row of the hosts.csv inventory. -/
structure Host where
  hostname : String
  description : String
  last_connected : Option String
deriving DecidableEq, Repr

/-- `RecentConnection` (lib.rs line 112). -/
structure RecentConnection where
  hostname : String
  description : String
  timestamp : Nat
deriving DecidableEq, Repr

/-- `RecentConnections::add_connection` (lib.rs lines 130-150): drop any prior
entry for the hostname, push the new entry at the front, keep at most 5. -/
def add_connection (recent : List RecentConnection) (hostname description : String)
    (now : Nat) : List RecentConnection :=
  List.take 5
    (⟨hostname, description, now⟩ :: List.filter (fun c => c.hostname != hostname) recent)

/-- The in-place single-host update loop of `update_last_connected`
(lib.rs lines 727-735): only the first row matching the hostname is updated. -/
def update_first_host (hostname nowStr : String) : List Host → Option (List Host)
  | [] => none
  | h :: t =>
    if h.hostname == hostname then some ({ h with last_connected := some nowStr } :: t)
    else (update_first_host hostname nowStr t).map (fun t' => h :: t')

/-- `update_last_connected` (lib.rs lines 711-769) on the decoded hosts.csv
rows: stamp the first matching row, or fail when the hostname is absent.
The CSV read/write IO itself is modelled as succeeding. -/
def update_last_connected (hosts : List Host) (hostname nowStr : String) :
    Except String (List Host) :=
  match update_first_host hostname nowStr hosts with
  | some hs => Except.ok hs
  | none => Except.error ("Host " ++ hostname ++ " not found in hosts list")

/-- The 47 directives of the generated `.rdp` document, in source order
(lib.rs lines 966-1015).  Exactly three are data-dependent: `full address`,
`username` and `domain`. -/
def rdp_lines (hostname username domain : String) : List String :=
  ["screen mode id:i:2",
   "desktopwidth:i:1920",
   "desktopheight:i:1080",
   "session bpp:i:32",
   "full address:s:" ++ hostname,
   "compression:i:1",
   "keyboardhook:i:2",
   "audiocapturemode:i:1",
   "videoplaybackmode:i:1",
   "connection type:i:2",
   "networkautodetect:i:1",
   "bandwidthautodetect:i:1",
   "enableworkspacereconnect:i:1",
   "disable wallpaper:i:0",
   "allow desktop composition:i:0",
   "allow font smoothing:i:0",
   "disable full window drag:i:1",
   "disable menu anims:i:1",
   "disable themes:i:0",
   "disable cursor setting:i:0",
   "bitmapcachepersistenable:i:1",
   "audiomode:i:0",
   "redirectprinters:i:1",
   "redirectcomports:i:0",
   "redirectsmartcards:i:1",
   "redirectclipboard:i:1",
   "redirectposdevices:i:0",
   "autoreconnection enabled:i:1",
   "authentication level:i:2",
   "prompt for credentials:i:0",
   "negotiate security layer:i:1",
   "remoteapplicationmode:i:0",
   "alternate shell:s:",
   "shell working directory:s:",
   "gatewayhostname:s:",
   "gatewayusagemethod:i:4",
   "gatewaycredentialssource:i:4",
   "gatewayprofileusagemethod:i:0",
   "promptcredentialonce:i:1",
   "use redirection server name:i:0",
   "rdgiskdcproxy:i:0",
   "kdcproxyname:s:",
   "username:s:" ++ username,
   "domain:s:" ++ domain,
   "enablecredsspsupport:i:1",
   "public mode:i:0",
   "cert ignore:i:1"]

/-- The `rdp_content` format string of `launch_rdp` (lib.rs lines 966-1015):
every directive line is terminated by CRLF, including the last. -/
def rdp_content (hostname username domain : String) : String :=
  String.join (List.map (fun l => l ++ "\r\n") (rdp_lines hostname username domain))

/-- `std::fs::write` into the Connections directory: create-or-truncate, so a
second write under the same file name replaces the previous content. -/
def fileWrite (files : List (String × String)) (name content : String) :
    List (String × String) :=
  (name, content) :: List.filter (fun f => f.1 != name) files

/-- Mutable state and external oracles surrounding one `launch_rdp` call:
the credential vault, the Connections directory, the recent-connections list,
the hosts.csv rows, the `ShellExecuteW` return value, whether
`load_recent_connections()` returns `Ok`, and the two clock readings. -/
structure LaunchEnv where
  store : Store
  files : List (String × String)
  recent : List RecentConnection
  hosts : List Host
  shellCode : Int
  recentLoadOk : Bool
  now : Nat
  nowStr : String

/-- Result of one `launch_rdp` call: the updated environment, the returned
`Result`, and how many `CredWriteW` calls were made against the vault. -/
structure LaunchResult where
  env : LaunchEnv
  result : Except String Unit
  storeWrites : Nat

/-- The `termsrv_username` recombination of `launch_rdp` (lib.rs lines
879-883): the full `domain\username` form when a domain is present, the bare
username otherwise. -/
def combined_username (id : Identity) : String :=
  if id.realm ≠ "" then id.realm ++ "\\" ++ id.account else id.account

/-- The credential-resolution match at the start of `launch_rdp`
(lib.rs lines 780-816): per-host `TERMSRV/<hostname>` entry first, then the
global `QuickRDP` entry. -/
def resolvedCreds (store : Store) (hostname : String) : Option StoredCredentials :=
  match storeRead store ("TERMSRV/" ++ hostname) with
  | some creds => some creds
  | none => storeRead store "QuickRDP"

/-- `launch_rdp` (lib.rs lines 771-1119).  Faithful to the source's order:
resolve credentials (abort when neither entry exists), parse the username,
re-read the per-host entry and provision it from the global credential when
absent, render and write `<hostname>.rdp`, invoke `ShellExecuteW` (failure
means a code at or below 32), then best-effort bookkeeping whose failures are
swallowed.  `CredWriteW`, directory creation and the artifact `fs::write` are
modelled as succeeding; vault read/decode errors are outside the model. -/
def launch_rdp (env : LaunchEnv) (host : Host) : LaunchResult :=
  match resolvedCreds env.store host.hostname with
  | none =>
    ⟨env, Except.error "No credentials found. Please save credentials in the login window first.", 0⟩
  | some credentials =>
    let id := parse_identity credentials.username
    let domain := id.realm
    let username := id.account
    let provisioned :=
      match storeRead env.store ("TERMSRV/" ++ host.hostname) with
      | none =>
        let termsrv_username := combined_username ⟨domain, username⟩
        (storeWrite env.store ("TERMSRV/" ++ host.hostname)
          ⟨termsrv_username, credentials.password⟩, 1)
      | some _ => (env.store, 0)
    let content := rdp_content host.hostname username domain
    let files1 := fileWrite env.files (host.hostname ++ ".rdp") content
    if env.shellCode ≤ 32 then
      ⟨{ env with store := provisioned.1, files := files1 },
       Except.error ("Failed to open RDP file. Error code: " ++ toString env.shellCode),
       provisioned.2⟩
    else
      let recent1 :=
        if env.recentLoadOk then
          add_connection env.recent host.hostname host.description env.now
        else env.recent
      let hosts1 :=
        match update_last_connected env.hosts host.hostname env.nowStr with
        | Except.ok hs => hs
        | Except.error _ => env.hosts
      ⟨{ env with store := provisioned.1, files := files1, recent := recent1, hosts := hosts1 },
       Except.ok (), provisioned.2⟩

theorem storeRead_storeWrite_self (s : Store) (k : String) (c : StoredCredentials) :
    storeRead (storeWrite s k c) k = some c := by
  simp [storeRead, storeWrite, List.find?]

theorem launch_writes_of_perhost (env : LaunchEnv) (host : Host) (c : StoredCredentials)
    (h : storeRead env.store ("TERMSRV/" ++ host.hostname) = some c) :
    (launch_rdp env host).storeWrites = 0 ∧ (launch_rdp env host).env.store = env.store := by
  simp only [launch_rdp, resolvedCreds, h]
  constructor <;> (split <;> rfl)

theorem launch_provision_of_global (env : LaunchEnv) (host : Host) (g : StoredCredentials)
    (h1 : storeRead env.store ("TERMSRV/" ++ host.hostname) = none)
    (h2 : storeRead env.store "QuickRDP" = some g) :
    (launch_rdp env host).storeWrites = 1 ∧
    (launch_rdp env host).env.store =
      storeWrite env.store ("TERMSRV/" ++ host.hostname)
        ⟨combined_username ⟨(parse_identity g.username).realm,
                            (parse_identity g.username).account⟩, g.password⟩ := by
  simp only [launch_rdp, resolvedCreds, h1, h2]
  constructor <;> (split <;> rfl)

theorem launch_files_eq (env : LaunchEnv) (host : Host) (c : StoredCredentials)
    (h : resolvedCreds env.store host.hostname = some c) :
    (launch_rdp env host).env.files =
      fileWrite env.files (host.hostname ++ ".rdp")
        (rdp_content host.hostname (parse_identity c.username).account
          (parse_identity c.username).realm) := by
  simp only [launch_rdp, h]
  split <;> rfl

theorem launch_result_ok_of_shell (env : LaunchEnv) (host : Host) (c : StoredCredentials)
    (h : resolvedCreds env.store host.hostname = some c) (hs : 32 < env.shellCode) :
    (launch_rdp env host).result = Except.ok () := by
  have hn : ¬ env.shellCode ≤ 32 := by omega
  simp only [launch_rdp, h, if_neg hn]

/-- Claim C1: resolving a host that already has a `TERMSRV/<hostname>` entry
performs zero vault writes during `launch_rdp`; resolving a host with no
per-host entry but a global `QuickRDP` entry performs exactly one vault write,
and a second launch for the same host then performs zero writes. -/
theorem C1_resolution_write_count :
    (∀ (env : LaunchEnv) (host : Host) (c : StoredCredentials),
      storeRead env.store ("TERMSRV/" ++ host.hostname) = some c →
      (launch_rdp env host).storeWrites = 0) ∧
    (∀ (env : LaunchEnv) (host : Host) (g : StoredCredentials),
      storeRead env.store ("TERMSRV/" ++ host.hostname) = none →
      storeRead env.store "QuickRDP" = some g →
      (launch_rdp env host).storeWrites = 1 ∧
      (launch_rdp (launch_rdp env host).env host).storeWrites = 0) := by
  refine ⟨fun env host c h => (launch_writes_of_perhost env host c h).1, ?_⟩
  intro env host g h1 h2
  have hp := launch_provision_of_global env host g h1 h2
  refine ⟨hp.1, ?_⟩
  have hr : storeRead (launch_rdp env host).env.store ("TERMSRV/" ++ host.hostname) =
      some ⟨combined_username ⟨(parse_identity g.username).realm,
                               (parse_identity g.username).account⟩, g.password⟩ := by
    rw [hp.2]; exact storeRead_storeWrite_self ..
  exact (launch_writes_of_perhost _ host _ hr).1

theorem C1_resolution_write_count_witness :
    (launch_rdp ⟨[("TERMSRV/srv1", ⟨"bob", "pw"⟩)], [], [], [], 33, true, 0, "t"⟩
      ⟨"srv1", "", none⟩).storeWrites = 0 ∧
    (launch_rdp ⟨[("QuickRDP", ⟨"DOM\\bob", "pw"⟩)], [], [], [], 33, true, 0, "t"⟩
      ⟨"srv2", "", none⟩).storeWrites = 1 := by
  constructor
  · exact C1_resolution_write_count.1 _ _ ⟨"bob", "pw"⟩ (by decide)
  · exact (C1_resolution_write_count.2 _ _ ⟨"DOM\\bob", "pw"⟩ (by decide) (by decide)).1

/-- Claim C3: when neither a `TERMSRV/<hostname>` entry nor the global
`QuickRDP` entry exists, `launch_rdp` fails with the no-credential message and
leaves the whole environment — in particular the Connections directory —
untouched. -/
theorem C3_no_credential_no_artifact :
    ∀ (env : LaunchEnv) (host : Host),
      storeRead env.store ("TERMSRV/" ++ host.hostname) = none →
      storeRead env.store "QuickRDP" = none →
      launch_rdp env host =
        ⟨env, Except.error "No credentials found. Please save credentials in the login window first.", 0⟩ := by
  intro env host h1 h2
  simp only [launch_rdp, resolvedCreds, h1, h2]

theorem C3_no_credential_no_artifact_witness :
    launch_rdp ⟨[], [("old.rdp", "x")], [], [], 33, true, 0, "t"⟩ ⟨"srv1", "", none⟩ =
      ⟨⟨[], [("old.rdp", "x")], [], [], 33, true, 0, "t"⟩,
       Except.error "No credentials found. Please save credentials in the login window first.", 0⟩ :=
  C3_no_credential_no_artifact _ _ (by decide) (by decide)

theorem containsChar_eq_false {l : List Char} {c : Char} (h : c ∉ l) :
    containsChar l c = false := by
  cases hb : containsChar l c
  · rfl
  · exact absurd (containsChar_eq_true.mp hb) h

/-- Claim C7: the identity parser is total and splits on the first backslash
(realm left, account right), else on the first `@` (account left, realm
right), else yields an empty realm; the four concrete examples from the
specification evaluate as stated. -/
theorem C7_identity_parser_total :
    (∀ l r : List Char, '\\' ∉ l →
      parse_identity (String.mk (l ++ '\\' :: r)) = ⟨String.mk l, String.mk r⟩) ∧
    (∀ l r : List Char, '\\' ∉ l → '\\' ∉ r → '@' ∉ l →
      parse_identity (String.mk (l ++ '@' :: r)) = ⟨String.mk r, String.mk l⟩) ∧
    (∀ s : String, '\\' ∉ s.data → '@' ∉ s.data → parse_identity s = ⟨"", s⟩) ∧
    parse_identity "DOM\\bob" = ⟨"DOM", "bob"⟩ ∧
    parse_identity "bob@corp.com" = ⟨"corp.com", "bob"⟩ ∧
    parse_identity "bob" = ⟨"", "bob"⟩ ∧
    parse_identity "" = ⟨"", ""⟩ := by
  refine ⟨?_, ?_, ?_, by decide, by decide, by decide, by decide⟩
  · intro l r h
    have hc : containsChar (l ++ '\\' :: r) '\\' = true :=
      containsChar_eq_true.mpr (by simp)
    simp only [parse_identity, String.data, hc, if_true,
      splitOnceList_append '\\' l r h]
  · intro l r hbl hbr hal
    have hnb : containsChar (l ++ '@' :: r) '\\' = false := by
      refine containsChar_eq_false ?_
      simp only [List.mem_append, List.mem_cons]
      rintro (h | h | h)
      · exact hbl h
      · exact absurd h (by decide)
      · exact hbr h
    have ha : containsChar (l ++ '@' :: r) '@' = true :=
      containsChar_eq_true.mpr (by simp)
    simp only [parse_identity, String.data, hnb, Bool.false_eq_true, if_false, ha, if_true,
      splitOnceList_append '@' l r hal]
  · intro s hb ha
    simp only [parse_identity, containsChar_eq_false hb, containsChar_eq_false ha,
      Bool.false_eq_true, if_false]

theorem C7_identity_parser_total_witness :
    parse_identity (String.mk (['D'] ++ '\\' :: ['x'])) = ⟨String.mk ['D'], String.mk ['x']⟩ ∧
    parse_identity (String.mk (['a'] ++ '@' :: ['b'])) = ⟨String.mk ['b'], String.mk ['a']⟩ ∧
    parse_identity "ab" = ⟨"", "ab"⟩ :=
  ⟨C7_identity_parser_total.1 ['D'] ['x'] (by decide),
   C7_identity_parser_total.2.1 ['a'] ['b'] (by decide) (by decide) (by decide),
   C7_identity_parser_total.2.2.1 "ab" (by decide) (by decide)⟩

/-- The username-stripping logic of `save_host_credentials` (lib.rs lines
1720-1737): keep only the bare account, dropping a `DOMAIN\` prefix or an
`@domain` suffix.  The dead `parts.len() != 2` branches are omitted as in
`parse_identity`. -/
def save_host_username (login : String) : String :=
  if containsChar login.data '\\' then
    String.mk (splitOnceList '\\' login.data).2
  else if containsChar login.data '@' then
    String.mk (splitOnceList '@' login.data).1
  else login

/-- `save_host_credentials` (lib.rs lines 1711-1804): write the per-host
`TERMSRV/<hostname>` entry with the stripped username.  `CredWriteW` is
modelled as succeeding; the UTF-16 blob round trip is covered separately by
the global-credential model. -/
def save_host_credentials (store : Store) (hostname : String)
    (credentials : StoredCredentials) : Store :=
  storeWrite store ("TERMSRV/" ++ hostname)
    ⟨save_host_username credentials.username, credentials.password⟩

theorem save_host_username_eq_account (login : String) :
    save_host_username login = (parse_identity login).account := by
  simp only [save_host_username, parse_identity]
  cases h1 : containsChar login.data '\\' <;> simp only [h1, Bool.false_eq_true, if_false, if_true]
  cases h2 : containsChar login.data '@' <;> simp only [h2, Bool.false_eq_true, if_false, if_true]

/-- Claim C2 counterexample: the direct per-host save operation does not store
`realm\account` — saving the login `DOM\bob` for host `srv1` stores the bare
account `bob` as the per-host account name even though the realm is
non-empty. -/
theorem C2_per_host_account_counterexample :
    storeRead (save_host_credentials [] "srv1" ⟨"DOM\\bob", "pw"⟩) "TERMSRV/srv1" =
      some ⟨"bob", "pw"⟩ ∧ ("bob" : String) ≠ "DOM\\bob" := by
  constructor
  · decide
  · decide

/-- Claim C2 (amended): the provisioning path of `launch_rdp` stores the
combined `realm\account` (bare account when the realm is empty) in the
per-host entry, while the direct per-host save operation always stores the
bare parsed account, discarding the realm. -/
theorem C2_per_host_account_forms :
    (∀ (env : LaunchEnv) (host : Host) (g : StoredCredentials),
      storeRead env.store ("TERMSRV/" ++ host.hostname) = none →
      storeRead env.store "QuickRDP" = some g →
      storeRead (launch_rdp env host).env.store ("TERMSRV/" ++ host.hostname) =
        some ⟨combined_username (parse_identity g.username), g.password⟩) ∧
    (∀ (store : Store) (hostname : String) (c : StoredCredentials),
      storeRead (save_host_credentials store hostname c) ("TERMSRV/" ++ hostname) =
        some ⟨(parse_identity c.username).account, c.password⟩) := by
  constructor
  · intro env host g h1 h2
    rw [(launch_provision_of_global env host g h1 h2).2]
    exact storeRead_storeWrite_self ..
  · intro store hostname c
    rw [save_host_credentials, save_host_username_eq_account]
    exact storeRead_storeWrite_self ..

theorem C2_per_host_account_forms_witness :
    storeRead (launch_rdp ⟨[("QuickRDP", ⟨"DOM\\bob", "pw"⟩)], [], [], [], 33, true, 0, "t"⟩
        ⟨"srv1", "", none⟩).env.store "TERMSRV/srv1" =
      some ⟨combined_username (parse_identity "DOM\\bob"), "pw"⟩ := by
  have h := C2_per_host_account_forms.1
    ⟨[("QuickRDP", ⟨"DOM\\bob", "pw"⟩)], [], [], [], 33, true, 0, "t"⟩
    ⟨"srv1", "", none⟩ ⟨"DOM\\bob", "pw"⟩ (by decide) (by decide)
  exact h

/-- The constant policy directives preceding `full address`. -/
def rdp_policy_head : List String :=
  ["screen mode id:i:2", "desktopwidth:i:1920", "desktopheight:i:1080", "session bpp:i:32"]

/-- The constant policy directives between `full address` and `username`. -/
def rdp_policy_mid : List String :=
  ["compression:i:1", "keyboardhook:i:2", "audiocapturemode:i:1", "videoplaybackmode:i:1",
   "connection type:i:2", "networkautodetect:i:1", "bandwidthautodetect:i:1",
   "enableworkspacereconnect:i:1", "disable wallpaper:i:0", "allow desktop composition:i:0",
   "allow font smoothing:i:0", "disable full window drag:i:1", "disable menu anims:i:1",
   "disable themes:i:0", "disable cursor setting:i:0", "bitmapcachepersistenable:i:1",
   "audiomode:i:0", "redirectprinters:i:1", "redirectcomports:i:0", "redirectsmartcards:i:1",
   "redirectclipboard:i:1", "redirectposdevices:i:0", "autoreconnection enabled:i:1",
   "authentication level:i:2", "prompt for credentials:i:0", "negotiate security layer:i:1",
   "remoteapplicationmode:i:0", "alternate shell:s:", "shell working directory:s:",
   "gatewayhostname:s:", "gatewayusagemethod:i:4", "gatewaycredentialssource:i:4",
   "gatewayprofileusagemethod:i:0", "promptcredentialonce:i:1",
   "use redirection server name:i:0", "rdgiskdcproxy:i:0", "kdcproxyname:s:"]

/-- The constant policy directives following `domain`. -/
def rdp_policy_tail : List String :=
  ["enablecredsspsupport:i:1", "public mode:i:0", "cert ignore:i:1"]

/-- Split a character list on every CRLF pair (an independent observer used to
check the generated artifact's line structure). -/
def splitCRLF : List Char → List (List Char)
  | [] => [[]]
  | '\r' :: '\n' :: rest => [] :: splitCRLF rest
  | c :: rest =>
    match splitCRLF rest with
    | [] => [[c]]
    | l :: ls => (c :: l) :: ls

theorem fileWrite_overwrites (files : List (String × String)) (name c1 c2 : String) :
    fileWrite (fileWrite files name c1) name c2 = fileWrite files name c2 := by
  simp [fileWrite, List.filter_cons, List.filter_filter]

theorem fileWrite_unique (files : List (String × String)) (name c : String) :
    List.filter (fun f => f.1 == name) (fileWrite files name c) = [(name, c)] := by
  simp only [fileWrite, List.filter_cons, beq_self_eq_true, if_true, List.filter_filter]
  have : ∀ f : String × String, ((f.1 == name) && (f.1 != name)) = false := by
    intro f; cases h : f.1 == name <;> simp [bne, h]
  simp [this]

/-- Claim C4: the artifact's only data-dependent directives are
`full address` (the hostname), `username` (the account) and `domain` (the
realm); on the specification's concrete example the CRLF-split of the built
content is exactly the 47 directive lines followed by the empty remainder
(every line CRLF-terminated); the launch path writes the artifact through the
truncating `fileWrite`, and writing the same host's file again replaces the
previous content instead of appending. -/
theorem C4_artifact_directives_and_overwrite :
    (∀ hostname username domain : String,
      rdp_lines hostname username domain =
        rdp_policy_head ++ ("full address:s:" ++ hostname) :: rdp_policy_mid ++
          ("username:s:" ++ username) :: ("domain:s:" ++ domain) :: rdp_policy_tail) ∧
    splitCRLF (rdp_content "srv1" "bob" "CORP").data =
      List.map String.data (rdp_lines "srv1" "bob" "CORP") ++ [[]] ∧
    (∀ (env : LaunchEnv) (host : Host) (c : StoredCredentials),
      resolvedCreds env.store host.hostname = some c →
      (launch_rdp env host).env.files =
        fileWrite env.files (host.hostname ++ ".rdp")
          (rdp_content host.hostname (parse_identity c.username).account
            (parse_identity c.username).realm)) ∧
    (∀ (files : List (String × String)) (name c1 c2 : String),
      fileWrite (fileWrite files name c1) name c2 = fileWrite files name c2) ∧
    (∀ (files : List (String × String)) (name c : String),
      List.filter (fun f => f.1 == name) (fileWrite files name c) = [(name, c)]) := by
  exact ⟨fun _ _ _ => rfl, by decide, launch_files_eq, fileWrite_overwrites, fileWrite_unique⟩

theorem C4_artifact_directives_and_overwrite_witness :
    (launch_rdp ⟨[("QuickRDP", ⟨"CORP\\bob", "pw"⟩)], [("srv1.rdp", "stale")], [], [], 33, true, 0, "t"⟩
      ⟨"srv1", "", none⟩).env.files =
      fileWrite [("srv1.rdp", "stale")] "srv1.rdp"
        (rdp_content "srv1" (parse_identity "CORP\\bob").account
          (parse_identity "CORP\\bob").realm) :=
  C4_artifact_directives_and_overwrite.2.2.1 _ _ ⟨"CORP\\bob", "pw"⟩ (by decide)

/-- Claim C5: the artifact content is a function of the hostname and the
resolved account and realm only — the stored password never reaches it — so
two launches whose resolved credentials share a username but differ in
password produce identical Connections-directory states. -/
theorem C5_artifact_password_noninterference :
    (∀ (env : LaunchEnv) (host : Host) (c : StoredCredentials),
      resolvedCreds env.store host.hostname = some c →
      (launch_rdp env host).env.files =
        fileWrite env.files (host.hostname ++ ".rdp")
          (rdp_content host.hostname (parse_identity c.username).account
            (parse_identity c.username).realm)) ∧
    (∀ (env1 env2 : LaunchEnv) (host : Host) (c1 c2 : StoredCredentials),
      resolvedCreds env1.store host.hostname = some c1 →
      resolvedCreds env2.store host.hostname = some c2 →
      c1.username = c2.username →
      env1.files = env2.files →
      (launch_rdp env1 host).env.files = (launch_rdp env2 host).env.files) := by
  refine ⟨launch_files_eq, ?_⟩
  intro env1 env2 host c1 c2 h1 h2 hu hf
  rw [launch_files_eq env1 host c1 h1, launch_files_eq env2 host c2 h2, hu, hf]

theorem C5_artifact_password_noninterference_witness :
    (launch_rdp ⟨[("QuickRDP", ⟨"CORP\\bob", "secretA"⟩)], [], [], [], 33, true, 0, "t"⟩
      ⟨"srv1", "", none⟩).env.files =
    (launch_rdp ⟨[("QuickRDP", ⟨"CORP\\bob", "secretB"⟩)], [], [], [], 33, true, 0, "t"⟩
      ⟨"srv1", "", none⟩).env.files :=
  C5_artifact_password_noninterference.2 _ _ _ ⟨"CORP\\bob", "secretA"⟩ ⟨"CORP\\bob", "secretB"⟩
    (by decide) (by decide) rfl rfl

/-- Claim C9: once credentials resolve and `ShellExecuteW` reports success
(code above 32), `launch_rdp` returns `Ok` even when both post-launch
bookkeeping steps fail — the recent-connections file cannot be loaded and the
host is absent from hosts.csv, so the timestamp update errors out. -/
theorem C9_bookkeeping_best_effort :
    ∀ (env : LaunchEnv) (host : Host) (c : StoredCredentials) (e : String),
      resolvedCreds env.store host.hostname = some c →
      32 < env.shellCode →
      env.recentLoadOk = false →
      update_last_connected env.hosts host.hostname env.nowStr = Except.error e →
      (launch_rdp env host).result = Except.ok () := by
  intro env host c _ h hs _ _
  exact launch_result_ok_of_shell env host c h hs

theorem C9_bookkeeping_best_effort_witness :
    (launch_rdp ⟨[("QuickRDP", ⟨"bob", "pw"⟩)], [], [], [], 33, false, 0, "t"⟩
      ⟨"srv1", "", none⟩).result = Except.ok () :=
  C9_bookkeeping_best_effort _ _ ⟨"bob", "pw"⟩ "Host srv1 not found in hosts list"
    (by decide) (by decide) rfl rfl

/-- One LDAP search result entry as built by `SearchEntry::construct`: a map
from attribute name to its (possibly empty) list of values. -/
structure LdapEntry where
  attrs : List (String × List String)
deriving DecidableEq, Repr

/-- `search_entry.attrs.get(name)` on an entry. -/
def attrGet (e : LdapEntry) (name : String) : Option (List String) :=
  (List.find? (fun a => a.1 == name) e.attrs).map (fun a => a.2)

/-- The result-mapping loop of `scan_domain_ldap` (lib.rs lines 1584-1620):
an entry with a first `dNSHostName` value becomes a Host (description from
the first `description` value, defaulting to empty); an entry whose attrs map
has no `dNSHostName` key logs one warning and is skipped; an entry whose
`dNSHostName` key is present with an empty value list is skipped without any
warning (the inner `if let` simply falls through).  Returns the mapped hosts
in entry order together with the number of warnings logged. -/
def map_ldap_entries : List LdapEntry → List Host × Nat
  | [] => ([], 0)
  | e :: rest =>
    let r := map_ldap_entries rest
    match attrGet e "dNSHostName" with
    | some hostname_values =>
      match hostname_values.head? with
      | some hostname =>
        let description := (((attrGet e "description").bind List.head?).getD "")
        (⟨hostname, description, none⟩ :: r.1, r.2)
      | none => (r.1, r.2)
    | none => (r.1, r.2 + 1)

/-- Quote a CSV field the way the `csv` crate's default (quote-when-necessary)
writer does. -/
def csvField (s : String) : String :=
  if s.data.any (fun c => c == ',' || c == '"' || c == '\n' || c == '\r') then
    "\"" ++ String.mk (s.data.flatMap (fun c => if c == '"' then ['"', '"'] else [c])) ++ "\""
  else s

/-- The hosts.csv replacement written by a successful scan (lib.rs lines
1640-1693): a `hostname,description` header and one record per host. -/
def renderHostsCsv (hosts : List Host) : String :=
  "hostname,description\n" ++
    String.join (List.map (fun h => csvField h.hostname ++ "," ++ csvField h.description ++ "\n") hosts)

/-- External outcomes feeding one `scan_domain_ldap` call: the LDAP connect /
bind / search call outcomes (`some e` is a failure with error text `e`), the
globally stored credential, the search result entries, and the current
hosts.csv bytes. -/
structure ScanEnv where
  connectErr : Option String
  globalCreds : Option StoredCredentials
  bindErr : Option String
  searchCallErr : Option String
  searchResultErr : Option String
  entries : List LdapEntry
  hostsCsv : String

/-- Result of one `scan_domain_ldap` call: the returned `Result` and the
hosts.csv bytes afterwards. -/
structure ScanResult where
  result : Except String String
  hostsCsv : String
deriving Repr

/-- `scan_domain_ldap` (lib.rs lines 1363-1709), in source order: validate the
inputs, connect, fetch the global credential, build the bind identity, bind,
derive the base DN, search, map the entries, and either fail with the
none-found message (hosts.csv untouched) or replace hosts.csv with the mapped
set.  The vault read of the global credential and the CSV writer IO are
modelled as succeeding; the unbind is a no-op here (its errors are ignored by
the source). -/
def scan_domain_ldap (env : ScanEnv) (domain server : String) : ScanResult :=
  if domain = "" then ⟨Except.error "Domain name is empty", env.hostsCsv⟩
  else if server = "" then ⟨Except.error "Server name is empty", env.hostsCsv⟩
  else
    match env.connectErr with
    | some e =>
      ⟨Except.error ("Failed to connect to LDAP server " ++ server ++ ": " ++ e), env.hostsCsv⟩
    | none =>
      match env.globalCreds with
      | none =>
        ⟨Except.error "No stored credentials found. Please save your domain credentials in the login window first.",
         env.hostsCsv⟩
      | some credentials =>
        let _bind_dn :=
          if containsChar credentials.username.data '@' ||
             containsChar credentials.username.data '\\' then
            credentials.username
          else credentials.username ++ "@" ++ domain
        match env.bindErr with
        | some e =>
          ⟨Except.error ("Authenticated LDAP bind failed: " ++ e ++
            ". Please verify your credentials have permission to query Active Directory."),
           env.hostsCsv⟩
        | none =>
          let _base_dn :=
            String.intercalate "," (List.map (fun part => "DC=" ++ part) (domain.splitOn "."))
          match env.searchCallErr with
          | some e => ⟨Except.error ("Failed to search LDAP: " ++ e), env.hostsCsv⟩
          | none =>
            match env.searchResultErr with
            | some e => ⟨Except.error ("LDAP search failed: " ++ e), env.hostsCsv⟩
            | none =>
              let hosts := (map_ldap_entries env.entries).1
              if hosts.isEmpty then
                ⟨Except.error "No Windows Servers found in the domain.", env.hostsCsv⟩
              else
                ⟨Except.ok ("Successfully found " ++ toString hosts.length ++ " Windows Server(s)."),
                 renderHostsCsv hosts⟩

/-- Claim C6: a scan that gets through connect, credential lookup, bind and
search but maps zero entries fails with the none-found message and leaves
hosts.csv byte-for-byte unchanged; conversely, hosts.csv can only change when
at least one host was mapped. -/
theorem C6_zero_mapped_inventory_untouched :
    (∀ (env : ScanEnv) (domain server : String) (c : StoredCredentials),
      domain ≠ "" → server ≠ "" →
      env.connectErr = none → env.globalCreds = some c → env.bindErr = none →
      env.searchCallErr = none → env.searchResultErr = none →
      (map_ldap_entries env.entries).1 = [] →
      scan_domain_ldap env domain server =
        ⟨Except.error "No Windows Servers found in the domain.", env.hostsCsv⟩) ∧
    (∀ (env : ScanEnv) (domain server : String),
      (scan_domain_ldap env domain server).hostsCsv ≠ env.hostsCsv →
      (map_ldap_entries env.entries).1 ≠ []) := by
  constructor
  · intro env domain server c hd hs hc hg hb h1 h2 hm
    simp only [scan_domain_ldap, if_neg hd, if_neg hs, hc, hg, hb, h1, h2, hm,
      List.isEmpty_nil, if_true]
  · intro env domain server hne hm
    apply hne
    by_cases hd : domain = ""
    · simp [scan_domain_ldap, hd]
    by_cases hs : server = ""
    · simp [scan_domain_ldap, hd, hs]
    simp only [scan_domain_ldap, if_neg hd, if_neg hs, hm, List.isEmpty_nil, if_true]
    repeat' split
    all_goals rfl

theorem C6_zero_mapped_inventory_untouched_witness :
    scan_domain_ldap ⟨none, some ⟨"bob", "pw"⟩, none, none, none, [], "hostname,description\nold,host\n"⟩
      "corp.com" "dc1" =
      ⟨Except.error "No Windows Servers found in the domain.",
       "hostname,description\nold,host\n"⟩ :=
  C6_zero_mapped_inventory_untouched.1 _ "corp.com" "dc1" ⟨"bob", "pw"⟩
    (by decide) (by decide) rfl rfl rfl rfl rfl rfl

/-- Claim C8 counterexample: an entry whose `dNSHostName` attribute is present
but carries no values is skipped without being mapped and without any logged
warning, so the mapped list is not "exactly the entries that have the
attribute" and the skipped entry gets no warning. -/
theorem C8_entry_mapping_counterexample :
    map_ldap_entries [⟨[("dNSHostName", [])]⟩] = ([], 0) ∧
    attrGet ⟨[("dNSHostName", [])]⟩ "dNSHostName" = some [] := by
  constructor <;> rfl

/-- Claim C8 (amended): the mapped host list consists of exactly the entries
whose `dNSHostName` attribute is present with at least one value — each
mapped to its first DNS-hostname value and first description value (default
empty) — and one warning is logged for each entry lacking the attribute
altogether; entries with the attribute present but valueless are skipped
silently. -/
theorem C8_entry_mapping :
    ∀ entries : List LdapEntry,
      map_ldap_entries entries =
        (entries.filterMap (fun e =>
          ((attrGet e "dNSHostName").bind List.head?).map
            (fun hostname =>
              ⟨hostname, ((attrGet e "description").bind List.head?).getD "", none⟩)),
         (entries.filter (fun e => (attrGet e "dNSHostName").isNone)).length) := by
  intro entries
  induction entries with
  | nil => rfl
  | cons e rest ih =>
    simp only [map_ldap_entries, ih, List.filterMap_cons, List.filter_cons]
    cases ha : attrGet e "dNSHostName" with
    | none => simp [ha]
    | some values =>
      cases hh : values.head? with
      | none => simp [ha, hh]
      | some hostname => simp [ha, hh]

/-- The UTF-16 code units of one scalar value, as produced by
`OsStr::encode_wide`. -/
def utf16EncodeChar (c : Char) : List Nat :=
  if c.toNat < 0x10000 then [c.toNat]
  else [0xD800 + (c.toNat - 0x10000) / 0x400, 0xDC00 + (c.toNat - 0x10000) % 0x400]

/-- `OsStr::encode_wide` over a whole string (without the terminator that the
callers chain on explicitly). -/
def utf16Encode : List Char → List Nat
  | [] => []
  | c :: cs => utf16EncodeChar c ++ utf16Encode cs

/-- `String::from_utf16` on a list of 16-bit code units: non-surrogate units
decode directly, a high surrogate must be followed by a low surrogate, and
anything else (a lone surrogate, or a unit that would not fit in `u16`) is a
decoding error. -/
def utf16Decode : List Nat → Option (List Char)
  | [] => some []
  | u :: rest =>
    if u < 0xD800 ∨ (0xDFFF < u ∧ u < 0x10000) then
      (utf16Decode rest).map (fun cs => Char.ofNat u :: cs)
    else if 0xD800 ≤ u ∧ u < 0xDC00 then
      match rest with
      | [] => none
      | lo :: rest2 =>
        if 0xDC00 ≤ lo ∧ lo < 0xE000 then
          (utf16Decode rest2).map
            (fun cs => Char.ofNat (0x10000 + (u - 0xD800) * 0x400 + (lo - 0xDC00)) :: cs)
        else none
    else none

/-- Rust `trim_end_matches('\0')`: remove every trailing NUL character. -/
def stripTrailingNulls (l : List Char) : List Char :=
  (List.dropWhile (fun c => c == '\x00') l.reverse).reverse

/-- A vault entry at the blob level: the stored `UserName` string and the raw
`CredentialBlob` as 16-bit units (`CredentialBlobSize` is twice their
count). -/
structure VaultCredential where
  username : String
  blob : List Nat
deriving DecidableEq, Repr

/-- The vault at blob level, for the global-credential round trip. -/
def GlobalStore : Type := List (String × VaultCredential)

/-- `CredReadW` at blob level. -/
def gStoreRead (s : GlobalStore) (k : String) : Option VaultCredential :=
  match List.find? (fun e => e.1 == k) s with
  | some e => some e.2
  | none => none

/-- `CredWriteW` at blob level. -/
def gStoreWrite (s : GlobalStore) (k : String) (c : VaultCredential) : GlobalStore :=
  (k, c) :: List.filter (fun e => e.1 != k) s

/-- `save_credentials` (lib.rs lines 189-262): reject an empty username, else
write the `QuickRDP` entry whose blob is the UTF-16 encoding of the password
followed by one zero code unit.  `CredWriteW` itself is modelled as
succeeding; the username's own wide encoding is kept at string level since
the claim concerns the password blob. -/
def save_credentials (store : GlobalStore) (username password : String) :
    Except String GlobalStore :=
  if username = "" then Except.error "Username cannot be empty"
  else
    Except.ok (gStoreWrite store "QuickRDP"
      ⟨username, utf16Encode password.data ++ [0]⟩)

/-- `get_stored_credentials` (lib.rs lines 285-377): read the `QuickRDP`
entry, reinterpret the blob bytes as 16-bit units, decode them as UTF-16
(failure is an error, a missing entry is `Ok(None)`), and strip all trailing
NULs from the decoded password. -/
def get_stored_credentials (store : GlobalStore) :
    Except String (Option StoredCredentials) :=
  match gStoreRead store "QuickRDP" with
  | none => Except.ok none
  | some cred =>
    match utf16Decode cred.blob with
    | none => Except.error "Failed to decode password from UTF-16"
    | some cs => Except.ok (some ⟨cred.username, String.mk (stripTrailingNulls cs)⟩)

theorem gStoreRead_gStoreWrite_self (s : GlobalStore) (k : String) (c : VaultCredential) :
    gStoreRead (gStoreWrite s k c) k = some c := by
  simp [gStoreRead, gStoreWrite, List.find?]

theorem char_valid_nat (c : Char) :
    c.toNat < 0xD800 ∨ (0xDFFF < c.toNat ∧ c.toNat < 0x110000) := c.valid

theorem utf16Decode_cons_single (u : Nat) (rest : List Nat)
    (h : u < 0xD800 ∨ (0xDFFF < u ∧ u < 0x10000)) :
    utf16Decode (u :: rest) = (utf16Decode rest).map (fun cs => Char.ofNat u :: cs) := by
  rw [utf16Decode.eq_def]
  simp only [if_pos h]

theorem utf16Decode_cons_pair (u lo : Nat) (rest : List Nat)
    (h1 : ¬ (u < 0xD800 ∨ (0xDFFF < u ∧ u < 0x10000)))
    (h2 : 0xD800 ≤ u ∧ u < 0xDC00) (h3 : 0xDC00 ≤ lo ∧ lo < 0xE000) :
    utf16Decode (u :: lo :: rest) =
      (utf16Decode rest).map
        (fun cs => Char.ofNat (0x10000 + (u - 0xD800) * 0x400 + (lo - 0xDC00)) :: cs) := by
  rw [utf16Decode.eq_def]
  simp only [if_neg h1, if_pos h2, if_pos h3]

theorem utf16Decode_encode_append (l : List Char) (rest : List Nat) :
    utf16Decode (utf16Encode l ++ rest) = (utf16Decode rest).map (fun cs => l ++ cs) := by
  induction l with
  | nil =>
    simp only [utf16Encode, List.nil_append]
    cases utf16Decode rest <;> simp
  | cons c cs ih =>
    rcases Nat.lt_or_ge c.toNat 0x10000 with h | h
    · have hval : c.toNat < 0xD800 ∨ (0xDFFF < c.toNat ∧ c.toNat < 0x10000) := by
        rcases char_valid_nat c with h1 | ⟨h1, _⟩
        · exact Or.inl h1
        · exact Or.inr ⟨h1, h⟩
      simp only [utf16Encode, utf16EncodeChar, if_pos h, List.cons_append, List.nil_append]
      rw [utf16Decode_cons_single _ _ hval, ih, Char.ofNat_toNat, Option.map_map]
      cases utf16Decode rest <;> simp
    · have hb : c.toNat < 0x110000 := by
        rcases char_valid_nat c with h1 | ⟨_, h2⟩
        · omega
        · exact h2
      have hnot : ¬ (0xD800 + (c.toNat - 0x10000) / 0x400 < 0xD800 ∨
          (0xDFFF < 0xD800 + (c.toNat - 0x10000) / 0x400 ∧
           0xD800 + (c.toNat - 0x10000) / 0x400 < 0x10000)) := by omega
      have hhi : 0xD800 ≤ 0xD800 + (c.toNat - 0x10000) / 0x400 ∧
          0xD800 + (c.toNat - 0x10000) / 0x400 < 0xDC00 := by omega
      have hlo : 0xDC00 ≤ 0xDC00 + (c.toNat - 0x10000) % 0x400 ∧
          0xDC00 + (c.toNat - 0x10000) % 0x400 < 0xE000 := by
        have := Nat.mod_lt (c.toNat - 0x10000) (show 0 < 0x400 by omega)
        omega
      have hrecomb : 0x10000 + (0xD800 + (c.toNat - 0x10000) / 0x400 - 0xD800) * 0x400 +
          (0xDC00 + (c.toNat - 0x10000) % 0x400 - 0xDC00) = c.toNat := by omega
      simp only [utf16Encode, utf16EncodeChar, if_neg (Nat.not_lt.mpr h), List.cons_append,
        List.nil_append]
      rw [utf16Decode_cons_pair _ _ _ hnot hhi hlo]
      simp only [hrecomb, Char.ofNat_toNat, ih, Option.map_map]
      cases utf16Decode rest <;> simp

theorem stripTrailingNulls_append_null (l : List Char) :
    stripTrailingNulls (l ++ ['\x00']) = stripTrailingNulls l := by
  simp [stripTrailingNulls, List.dropWhile]

theorem stripTrailingNulls_eq_self (l : List Char) (h : l.getLast? ≠ some '\x00') :
    stripTrailingNulls l = l := by
  cases hr : l.reverse with
  | nil =>
    have : l = [] := by simpa using congrArg List.reverse hr
    simp [this, stripTrailingNulls]
  | cons a t =>
    have ha : l.getLast? = some a := by
      rw [← List.head?_reverse, hr]; rfl
    have hne : (a == '\x00') = false := by
      cases hb : a == '\x00'
      · rfl
      · exact absurd (ha.trans (congrArg some (eq_of_beq hb))) h
    calc stripTrailingNulls l
        = (List.dropWhile (fun c => c == '\x00') (a :: t)).reverse := by
          rw [stripTrailingNulls, hr]
      _ = (a :: t).reverse := by rw [List.dropWhile_cons_of_neg (by simp [hne])]
      _ = l := by rw [← hr, List.reverse_reverse]

/-- Claim C10: saving stores the password as its UTF-16 code units followed by
one zero unit; reading decodes the blob and strips every trailing NUL, so a
password without a trailing NUL round-trips exactly, and one with trailing
NULs comes back with them removed. -/
theorem C10_password_round_trip :
    ∀ (store : GlobalStore) (username password : String),
      username ≠ "" →
      save_credentials store username password =
        Except.ok (gStoreWrite store "QuickRDP"
          ⟨username, utf16Encode password.data ++ [0]⟩) ∧
      get_stored_credentials (gStoreWrite store "QuickRDP"
          ⟨username, utf16Encode password.data ++ [0]⟩) =
        Except.ok (some ⟨username, String.mk (stripTrailingNulls password.data)⟩) ∧
      (password.data.getLast? ≠ some '\x00' →
        String.mk (stripTrailingNulls password.data) = password) := by
  intro store username password hu
  refine ⟨by simp [save_credentials, hu], ?_, ?_⟩
  · have hdec : utf16Decode (utf16Encode password.data ++ [0]) =
        some (password.data ++ ['\x00']) := by
      rw [utf16Decode_encode_append]
      rfl
    simp only [get_stored_credentials, gStoreRead_gStoreWrite_self, hdec,
      stripTrailingNulls_append_null]
  · intro h
    rw [stripTrailingNulls_eq_self password.data h]

theorem C10_password_round_trip_witness :
    get_stored_credentials (gStoreWrite [] "QuickRDP"
        ⟨"bob", utf16Encode "pw".data ++ [0]⟩) =
      Except.ok (some ⟨"bob", String.mk (stripTrailingNulls "pw".data)⟩) ∧
    String.mk (stripTrailingNulls "pw".data) = "pw" :=
  ⟨(C10_password_round_trip [] "bob" "pw" (by decide)).2.1,
   (C10_password_round_trip [] "bob" "pw" (by decide)).2.2 (by decide)⟩
